import Mathlib

/-!
Verification of the bluebella_pytest end-to-end test framework.

This file shallowly embeds the algorithmic parts of the repository and
proves properties about them:

* `pageobjects/collectionpage.py` — `CollectionPage.find_product_by_name`,
  the incremental-scroll ("lazy-scroll") product locator;
* `utils/waits.py` — `WaitUtils` (timeout fallback, element waits,
  non-throwing existence checks);
* `utils/helpers.py` — `load_test_data`, `validate_test_data`;
* `pageobjects/productpage.py` — `ProductPage.select_size_if_available`;
* `pageobjects/login.py` — `LoginPage.is_signed_in`,
  `LoginPage.navigate_back_to_homepage`;
* `test_bluebella.py` — the data-validation gate of the e2e scenario.

The browser driver is modelled as a deterministic response trace: a record
of functions giving, for each interaction point of the code, the value the
driver would return there.  Quantifying over traces quantifies over every
possible sequence of driver responses.  Wait primitives are modelled as a
bounded number of polls (WebDriverWait polls at a fixed interval until the
timeout elapses); a wait that never succeeds raises a timeout error.
-/

set_option autoImplicit false

/-! ### Product nodes and the title scan

A product tile, as seen by `find_product_by_name`.  The code reads the
tile title via `product.find_element(...title locator...).text.strip()`;
that lookup either yields a text (modelled `some t`) or raises
`NoSuchElementException` / `StaleElementReferenceException` (modelled
`none`, both exception classes are handled identically by the code).
After a successful matching title read the code additionally calls
`scroll_to_element(self.driver, product)` before returning — still inside
the same per-node `try`, so a handle that went stale between the title
read and the scroll raises `StaleElementReferenceException` there, is
caught by the same `except ... continue` arm, and the matched tile is
skipped; `scrollOk` records whether that scroll call succeeds on this
tile.
-/
structure Node where
  title : Option String
  scrollOk : Bool
deriving DecidableEq, Repr

/-- Embedding of Python `str.strip()`: remove whitespace characters from
both ends of the string. -/
def pyStrip (s : String) : String :=
  String.mk
    (((s.data.dropWhile Char.isWhitespace).reverse.dropWhile Char.isWhitespace).reverse)

/-- Embedding of the per-node test in the scanning loop of
`find_product_by_name`: a node matches when its title lookup succeeds and
the stripped title text equals the target exactly
(`title_element.text.strip() == product_name`). -/
def nodeMatches (target : String) (n : Node) : Bool :=
  match n.title with
  | some t => pyStrip t == target
  | none => false

/-- The title-lookup layer of the inner
`for idx, product in enumerate(products)` loop: walk the queried nodes in
DOM order, skip nodes whose title lookup fails (the
`except (NoSuchElementException, StaleElementReferenceException):
continue` arm, subsumed in `nodeMatches` returning `false`), and return
the first node whose stripped title equals the target.  This captures the
handling of title-read failures in isolation; the full per-node handling,
which can also skip a title-matching node when the subsequent
scroll-into-view goes stale, is `scanReturnable` below. -/
def scanProducts (target : String) : List Node → Option Node
  | [] => none
  | n :: rest => if nodeMatches target n then some n else scanProducts target rest

/-- Embedding of the complete per-node handling of both scanning loops of
`find_product_by_name`: walk the queried nodes in DOM order; a node whose
title lookup fails is skipped; a node whose stripped title equals the
target has `scroll_to_element` called on it inside the same `try` — when
that raises (the handle went stale after the title read), the same
`except (NoSuchElementException, StaleElementReferenceException):
continue` arm skips the matched node and scanning continues with the next
node; the first title-matching node whose scroll succeeds is the one the
loop proceeds to return. -/
def scanReturnable (target : String) : List Node → Option Node
  | [] => none
  | n :: rest =>
    if nodeMatches target n then
      if n.scrollOk then some n else scanReturnable target rest
    else scanReturnable target rest

/-! ### The driver response trace -/

/-- Responses of the browser driver to every query `find_product_by_name`
can make, indexed by the main-loop iteration `k` in which the query
happens. -/
structure DriverTrace where
  /-- Result of `driver.find_elements(*self.product_grid_items)` at the
  start of iteration `k`. -/
  batch : Nat → List Node
  /-- Whether the un-guarded `wait_for_element_present` in the
  empty-products branch at iteration `k` succeeds (`false` means it raises
  `TimeoutException`, which propagates out of the function). -/
  emptyWaitOk : Nat → Bool
  /-- Whether the un-guarded `wait_for_element_present` issued after a
  match at iteration `k` succeeds (`false` raises, which propagates). -/
  matchWaitOk : Nat → Bool
  /-- Result of `return document.body.scrollHeight` queried at the end of
  iteration `k`. -/
  height : Nat → Nat
  /-- Result of `return window.pageYOffset || window.scrollY || 0;`
  queried at the end of iteration `k`. -/
  scrollPos : Nat → Nat
  /-- Whether the un-guarded `wait_for_elements_present(min_count=1)` of
  the final top-rescan succeeds (`false` raises, which propagates). -/
  finalWaitOk : Bool
  /-- Result of the re-query `driver.find_elements(...)` in the final
  top-rescan. -/
  finalBatch : List Node

/-- Constant `scroll_amount = 400` of `find_product_by_name`. -/
def scrollAmount : Nat := 400

/-- Constant `max_scrolls = 100` of `find_product_by_name`. -/
def maxScrolls : Nat := 100

/-- Constant `500` of the bottom-proximity check
`if current_scroll + 500 >= new_height`. -/
def bottomMargin : Nat := 500

/-- How the main scanning loop of `find_product_by_name` ended. -/
inductive LoopExit where
  /-- A matching node was returned from iteration `k`. -/
  | found (n : Node) (k : Nat)
  /-- An un-guarded wait raised `TimeoutException`, which propagates. -/
  | raisedTimeout
  /-- The loop fell through (cap reached, or bottom reached): control
  proceeds to the final top-rescan. -/
  | exhausted
deriving DecidableEq, Repr

/-- Observable outcome of the main loop: how it ended, how many loop
iterations began, and how many incremental `scroll_position +=
scroll_amount` scroll steps were executed. -/
structure LoopOut where
  exit : LoopExit
  iters : Nat
  steps : Nat
deriving DecidableEq, Repr

/-- Account one completed loop iteration (which always performed exactly
one incremental scroll step) before continuing with the recursive rest. -/
def LoopOut.afterIteration (r : LoopOut) : LoopOut :=
  ⟨r.exit, r.iters + 1, r.steps + 1⟩

/-- Embedding of the main `for scroll_count in range(max_scrolls)` loop of
`CollectionPage.find_product_by_name`.  `fuel` is the number of remaining
iterations (`max_scrolls - k`), `k` the global iteration index used to
read the trace, `pos` the running `scroll_position` variable.  The
source also keeps a `last_height` variable, but after initialization it is
only ever written (`if new_height > last_height: last_height = new_height`)
and never read, so it has no observable effect and is omitted.
Branches, in source order:
* `if not products:` — scroll one increment, issue the un-guarded short
  `wait_for_element_present` (propagating its timeout), and `continue`
  (skipping the bottom check);
* a returnable match found by the inner scan (title matched and the
  per-node scroll-into-view succeeded; title-matching nodes whose scroll
  went stale were skipped inside `scanReturnable`) — issue the un-guarded
  short `wait_for_element_present` (propagating its timeout), and return
  the node;
* no returnable match — scroll one increment, issue the guarded
  `wait_for_elements_present` (its outcome is swallowed by
  `except TimeoutException`), query the new height and scroll position,
  and `break` when `current_scroll + 500 >= new_height`. -/
def runLoop (tr : DriverTrace) (target : String) : Nat → Nat → Nat → LoopOut
  | 0, _, _ => ⟨.exhausted, 0, 0⟩
  | fuel + 1, k, pos =>
    if (tr.batch k).isEmpty then
      if tr.emptyWaitOk k then
        (runLoop tr target fuel (k + 1) (pos + scrollAmount)).afterIteration
      else
        ⟨.raisedTimeout, 1, 1⟩
    else
      match scanReturnable target (tr.batch k) with
      | some n =>
        if tr.matchWaitOk k then ⟨.found n k, 1, 0⟩ else ⟨.raisedTimeout, 1, 0⟩
      | none =>
        if tr.height k ≤ tr.scrollPos k + bottomMargin then
          ⟨.exhausted, 1, 1⟩
        else
          (runLoop tr target fuel (k + 1) (pos + scrollAmount)).afterIteration

/-- Result of a whole `find_product_by_name` call. -/
inductive SearchResult where
  /-- The function returned node `n`. -/
  | found (n : Node)
  /-- The function raised
  `NoSuchElementException("Product ... not found on collection page after
  scrolling")` — the ProductNotFoundError of the spec. -/
  | notFound
  /-- An un-guarded wait raised `TimeoutException`, which propagated out
  of the function. -/
  | waitTimeout
deriving DecidableEq, Repr

/-- Observable outcome of a `find_product_by_name` call. -/
structure SearchOutcome where
  result : SearchResult
  /-- Number of main-loop iterations that began. -/
  itersRun : Nat
  /-- Number of incremental `scroll_position += scroll_amount` steps. -/
  scrollSteps : Nat
  /-- Whether the final top-rescan began (`window.scrollTo(0, 0)` was
  issued). -/
  finalPass : Bool
  /-- Number of `driver.find_elements` re-queries performed inside the
  final top-rescan. -/
  finalQueries : Nat
  /-- The main-loop iteration at which the returned node was found, when
  the return came from the main loop. -/
  foundIter : Option Nat
deriving DecidableEq, Repr

/-- Embedding of `CollectionPage.find_product_by_name`
(`pageobjects/collectionpage.py`): run the main loop with the cap
`max_scrolls = 100`; on fall-through, perform the final top-rescan —
scroll to the very top, issue the un-guarded short
`wait_for_elements_present(min_count=1)` (propagating its timeout), then
re-query and re-scan once, returning the first node whose title matches
and whose scroll-into-view succeeds (a matching tile whose scroll goes
stale is skipped by the final-pass `except ... continue` arm as well), or
raising `NoSuchElementException`. -/
def find_product_by_name (tr : DriverTrace) (target : String) : SearchOutcome :=
  match (runLoop tr target maxScrolls 0 0).exit with
  | .found n k =>
    ⟨.found n, (runLoop tr target maxScrolls 0 0).iters,
      (runLoop tr target maxScrolls 0 0).steps, false, 0, some k⟩
  | .raisedTimeout =>
    ⟨.waitTimeout, (runLoop tr target maxScrolls 0 0).iters,
      (runLoop tr target maxScrolls 0 0).steps, false, 0, none⟩
  | .exhausted =>
    if tr.finalWaitOk then
      match scanReturnable target tr.finalBatch with
      | some n =>
        ⟨.found n, (runLoop tr target maxScrolls 0 0).iters,
          (runLoop tr target maxScrolls 0 0).steps, true, 1, none⟩
      | none =>
        ⟨.notFound, (runLoop tr target maxScrolls 0 0).iters,
          (runLoop tr target maxScrolls 0 0).steps, true, 1, none⟩
    else
      ⟨.waitTimeout, (runLoop tr target maxScrolls 0 0).iters,
        (runLoop tr target maxScrolls 0 0).steps, true, 0, none⟩

/-! ### Wait utilities (`utils/waits.py`)

WebDriverWait polls its condition at a fixed interval until the timeout
elapses; a timeout of `t` seconds therefore allows a bounded number of
polls.  We model a wait by the sequence of values the driver would return
at each poll and by the number of polls the timeout allows.
-/

/-- Error raised by a wait primitive: `TimeoutException` is the only
exception the wait methods of `WaitUtils` raise. -/
inductive WaitError where
  | timeout
deriving DecidableEq, Repr

/-- First successful poll of a single-element wait
(`wait.until(EC.presence_of_element_located(...))` and the visibility and
clickability variants): starting at poll `i` with `fuel` polls remaining,
return the first `some` response. -/
def firstSomeFrom {α : Type} (polls : Nat → Option α) : Nat → Nat → Option α
  | 0, _ => none
  | fuel + 1, i =>
    match polls i with
    | some e => some e
    | none => firstSomeFrom polls fuel (i + 1)

/-- Embedding of `WaitUtils.wait_for_element_visible`: poll until the
element is visible, raise `TimeoutException` when it never is within the
allowed polls. -/
def wait_for_element_visible {α : Type} (polls : Nat → Option α) (maxPolls : Nat) :
    Except WaitError α :=
  match firstSomeFrom polls maxPolls 0 with
  | some e => Except.ok e
  | none => Except.error WaitError.timeout

/-- Embedding of `WaitUtils.wait_for_element_present`: identical polling
structure to the visibility wait, with the presence condition. -/
def wait_for_element_present {α : Type} (polls : Nat → Option α) (maxPolls : Nat) :
    Except WaitError α :=
  match firstSomeFrom polls maxPolls 0 with
  | some e => Except.ok e
  | none => Except.error WaitError.timeout

/-- First poll whose `driver.find_elements(*locator)` result is truthy
(nonempty), as evaluated by
`wait.until(lambda driver: driver.find_elements(*locator))`. -/
def firstNonemptyFrom {α : Type} (polls : Nat → List α) : Nat → Nat → Option (List α)
  | 0, _ => none
  | fuel + 1, i =>
    if (polls i).isEmpty then firstNonemptyFrom polls fuel (i + 1)
    else some (polls i)

/-- Embedding of `WaitUtils.wait_for_elements_present`: the inner
`wait.until` polls only until `find_elements` returns a nonempty list (a
truthy value); the resulting list is then checked once against
`min_count` — `if len(elements) >= min_count: return elements` — and the
method raises `TimeoutException` immediately otherwise, without polling
again.  The `min_count` parameter defaults to 1 in the source. -/
def wait_for_elements_present {α : Type} (polls : Nat → List α) (maxPolls : Nat)
    (min_count : Nat) : Except WaitError (List α) :=
  match firstNonemptyFrom polls maxPolls 0 with
  | none => Except.error WaitError.timeout
  | some es => if min_count ≤ es.length then Except.ok es else Except.error WaitError.timeout

/-- Embedding of `WaitUtils.is_element_visible`: call
`wait_for_element_visible` under `try`, return `True` on success and
`False` on `TimeoutException` (defaults to a short 2-second check). -/
def is_element_visible {α : Type} (polls : Nat → Option α) (maxPolls : Nat) : Bool :=
  match wait_for_element_visible polls maxPolls with
  | Except.ok _ => true
  | Except.error WaitError.timeout => false

/-- Embedding of `WaitUtils.is_element_present`: call
`wait_for_element_present` under `try`, return `True` on success and
`False` on `TimeoutException`. -/
def is_element_present {α : Type} (polls : Nat → Option α) (maxPolls : Nat) : Bool :=
  match wait_for_element_present polls maxPolls with
  | Except.ok _ => true
  | Except.error WaitError.timeout => false

/-! ### Timeout fallback (`utils/waits.py`, `WaitUtils.__init__` and the
per-call `timeout or self.timeout` expressions)

Python truthiness of an optional integer timeout: `None` and `0` are
falsy, every positive integer is truthy.  Every wait method of
`WaitUtils` computes its effective timeout as `timeout or self.timeout`,
and the constructor computes `timeout or config.default_timeout`.
-/

/-- Embedding of the Python expression `t or dflt` for `t` an optional
natural-number timeout: `None` and `0` fall back to `dflt`. -/
def pyOrTimeout (t : Option Nat) (dflt : Nat) : Nat :=
  match t with
  | none => dflt
  | some 0 => dflt
  | some (n + 1) => n + 1

/-- State of a `WaitUtils` instance: the stored default timeout. -/
structure WaitUtils where
  timeout : Nat
deriving DecidableEq, Repr

/-- Embedding of `WaitUtils.__init__`:
`self.timeout = timeout or config.default_timeout`. -/
def WaitUtils.init (timeout : Option Nat) (defaultTimeout : Nat) : WaitUtils :=
  ⟨pyOrTimeout timeout defaultTimeout⟩

/-- Effective timeout used by every wait method of `WaitUtils`
(`wait_for_element_visible`, `wait_for_element_clickable`,
`wait_for_element_present`, `wait_for_elements_present`,
`wait_for_url_contains`, `wait_for_text_in_element` all build
`WebDriverWait(self.driver, timeout or self.timeout)`). -/
def WaitUtils.effectiveTimeout (w : WaitUtils) (timeout : Option Nat) : Nat :=
  pyOrTimeout timeout w.timeout

/-! ### Product page (`pageobjects/productpage.py`) -/

/-- Embedding of `ProductPage.select_size_if_available`: probe the size
option with the short existence check `is_element_visible(locator,
timeout=3)`; when visible, try to click it, converting a click failure to
`False`; when not visible, return `False` without raising.
`sizePolls` are the driver responses of the visibility probe and
`clickSucceeds` whether the guarded click raises. -/
def select_size_if_available {α : Type} (sizePolls : Nat → Option α) (maxPolls : Nat)
    (clickSucceeds : Bool) : Bool :=
  if is_element_visible sizePolls maxPolls then
    if clickSucceeds then true else false
  else false

/-! ### Test data helpers (`utils/helpers.py`) -/

/-- Parsed JSON values, the possible results of `json.load`. -/
inductive Json where
  | null
  | bool (b : Bool)
  | num (n : Int)
  | str (s : String)
  | arr (items : List Json)
  | obj (fields : List (String × Json))

/-- Python error classes relevant to `load_test_data` beyond file and
parse errors: calling `.get` on a non-dict value raises
`AttributeError`. -/
inductive PyError where
  | attributeError
deriving DecidableEq, Repr

/-- Embedding of Python `dict.get(key, default)` on a parsed JSON object
(JSON object keys are unique, so first-occurrence lookup agrees with dict
lookup). -/
def dictGet (fields : List (String × Json)) (key : String) (dflt : Json) : Json :=
  match fields.find? (fun p => p.1 == key) with
  | some p => p.2
  | none => dflt

/-- Embedding of `load_test_data` (`utils/helpers.py`) after a successful
`json.load` of an existing, well-formed file: the code runs
`test_data_list = data.get("data", [])` and returns it.  When the parsed
top-level value is not an object, `.get` does not exist on it and Python
raises `AttributeError`. -/
def load_test_data (data : Json) : Except PyError Json :=
  match data with
  | Json.obj fields => Except.ok (dictGet fields "data" (Json.arr []))
  | _ => Except.error PyError.attributeError

/-- Embedding of `validate_test_data` (`utils/helpers.py`): collect
`missing_keys = [key for key in required_keys if key not in test_data]`
and return `True` exactly when that list is empty.  A test record is
modelled as its key-value pairs; `key not in test_data` is dict-key
membership. -/
def validate_test_data (test_data : List (String × String)) (required_keys : List String) :
    Bool :=
  (required_keys.filter (fun key => !(test_data.any (fun p => p.1 == key)))).isEmpty

/-- The `TEST_DATA_KEYS` constant of `utils/constants.py`. -/
def TEST_DATA_KEYS : List String :=
  ["userEmail", "passWord", "menuName", "subMenuName", "sortBy", "productName",
   "email", "lastName", "firstName", "postalCode", "phone", "phone_country_select"]

/-! ### Login page (`pageobjects/login.py`) and browser actions -/

/-- Abstract browser actions, one per driver-touching page-object call. -/
inductive BrowserAction where
  | navigate (url : String)
  | query (what : String)
  | click (what : String)
  | sendKeys (what : String) (value : String)
deriving DecidableEq, Repr

/-- Embedding of Python `s.startswith(p)`: `p` is a prefix of `s`,
compared character by character. -/
def pyStartswith (s p : String) : Bool :=
  p.data.isPrefixOf s.data

/-- Embedding of `LoginPage.is_signed_in`: the current URL is checked
against the hard-coded literal prefix
(`current_url.startswith("https://www.bluebella.com/account")`); the
configured base URL is not consulted anywhere in the method. -/
def is_signed_in (current_url : String) : Bool :=
  pyStartswith current_url "https://www.bluebella.com/account"

/-- Embedding of `LoginPage.navigate_back_to_homepage` as the list of
driver navigations it issues: `self.navigate_to(original_url)` when
`is_signed_in()` holds, and none at all otherwise (the else branch only
logs a warning). -/
def navigate_back_to_homepage (current_url original_url : String) : List BrowserAction :=
  if is_signed_in current_url then [BrowserAction.navigate original_url] else []

/-! ### The e2e scenario validation gate (`test_bluebella.py`) -/

/-- How a scenario run ended for the purpose of the validation gate. -/
inductive ScenarioStatus where
  /-- The `assert validate_test_data(...)` at the top of the test body
  failed, aborting the run. -/
  | assertionFailed
  /-- Validation passed and the browser-driving steps began. -/
  | proceeded
deriving DecidableEq, Repr

/-- Python `record[key]` lookup on a test record (total here; the
scenario only reads keys after validating their presence). -/
def recGet (record : List (String × String)) (key : String) : String :=
  (((record.find? (fun p => p.1 == key)).map Prod.snd)).getD ""

/-- Browser actions of the opening steps of
`test_bluebella_e2e_shopping_flow`, in source order: navigate to the base
URL, read the current URL, probe and dismiss the Klaviyo popup, read the
page title, then the login flow (`LoginPage.login`) and the sign-in
check.  Later steps (menu navigation, sorting, product selection,
checkout) follow these and depend on further driver responses; every
browser action of the test occurs inside this post-validation program. -/
def e2eBrowserActions (record : List (String × String)) (baseUrl : String) :
    List BrowserAction :=
  [BrowserAction.navigate baseUrl,
   BrowserAction.query "current_url",
   BrowserAction.query "klaviyo_popup",
   BrowserAction.query "title",
   BrowserAction.click "account_icon",
   BrowserAction.sendKeys "email_input" (recGet record "userEmail"),
   BrowserAction.sendKeys "password_input" (recGet record "passWord"),
   BrowserAction.click "signin_button",
   BrowserAction.query "current_url"]

/-- Embedding of the validation gate of `test_bluebella_e2e_shopping_flow`:
the first statement of the test body is
`assert validate_test_data(test_data, TEST_DATA_KEYS)`; when it fails the
run aborts with an `AssertionError` having performed no browser action,
and only when it passes does the browser-driving program run. -/
def run_e2e_scenario (record : List (String × String)) (baseUrl : String) :
    ScenarioStatus × List BrowserAction :=
  if validate_test_data record TEST_DATA_KEYS then
    (ScenarioStatus.proceeded, e2eBrowserActions record baseUrl)
  else
    (ScenarioStatus.assertionFailed, [])

/-! ### Concrete driver traces and inputs used in witnesses and
counterexamples -/

/-- Trace in which the first query returns one tile whose title strips to
the target: the search succeeds in iteration 0. -/
def trLaceBra : DriverTrace :=
  { batch := fun k => if k = 0 then [Node.mk (some " Lace Bra ") true] else []
    emptyWaitOk := fun _ => true
    matchWaitOk := fun _ => true
    height := fun _ => 2000
    scrollPos := fun _ => 0
    finalWaitOk := true
    finalBatch := [] }

/-- Trace in which a stale tile precedes the matching tile in the first
queried batch. -/
def trStaleThenMatch : DriverTrace :=
  { batch := fun k =>
      if k = 0 then [Node.mk none true, Node.mk (some "Lace Bra") true] else []
    emptyWaitOk := fun _ => true
    matchWaitOk := fun _ => true
    height := fun _ => 2000
    scrollPos := fun _ => 0
    finalWaitOk := true
    finalBatch := [] }

/-- Trace in which every product query returns the empty list while the
driver reports the scroll position already at the page bottom: the
empty-products branch never reads position or height, so the loop runs to
the 100-iteration cap anyway. -/
def trEmptyBatches : DriverTrace :=
  { batch := fun _ => []
    emptyWaitOk := fun _ => true
    matchWaitOk := fun _ => true
    height := fun _ => 1000
    scrollPos := fun _ => 1000
    finalWaitOk := true
    finalBatch := [] }

/-- Trace that exhausts scanning in iteration 0 (one non-matching tile,
reported scroll position within 500px of the reported height) and whose
final-pass stabilization wait times out. -/
def trFinalTimeout : DriverTrace :=
  { batch := fun _ => [Node.mk (some "Other Product") true]
    emptyWaitOk := fun _ => true
    matchWaitOk := fun _ => true
    height := fun _ => 1000
    scrollPos := fun _ => 600
    finalWaitOk := false
    finalBatch := [] }

/-- Trace that exhausts scanning in iteration 0 and finds the target in
the final top-rescan. -/
def trFinalFound : DriverTrace :=
  { batch := fun _ => [Node.mk (some "Other Product") true]
    emptyWaitOk := fun _ => true
    matchWaitOk := fun _ => true
    height := fun _ => 1000
    scrollPos := fun _ => 600
    finalWaitOk := true
    finalBatch := [Node.mk (some "Lace Bra") true] }

/-- Trace whose first batch holds two tiles whose titles both equal the
target: the first goes stale at the post-match scroll-into-view and is
skipped, so the search returns the second. -/
def trStaleScroll : DriverTrace :=
  { batch := fun k =>
      if k = 0 then
        [Node.mk (some "Lace Bra") false, Node.mk (some "Lace Bra") true]
      else []
    emptyWaitOk := fun _ => true
    matchWaitOk := fun _ => true
    height := fun _ => 2000
    scrollPos := fun _ => 0
    finalWaitOk := true
    finalBatch := [] }

/-- Poll responses under which `find_elements` first returns one element
and from the second poll on two elements. -/
def countPolls : Nat → List Nat :=
  fun i => if i = 0 then [0] else [0, 1]

/-- A record list parsed from a data file whose top level is a JSON
list. -/
def sampleRecords : List Json :=
  [Json.obj [("productName", Json.str "Lace Bra")]]

/-! ## Helper lemmas -/

/-- A successful full scan returns the first returnable node in DOM
order: the queried list splits into a prefix of nodes that are either
non-matching (mismatched or failed title read) or matching but stale at
the scroll into view, the returned node — matching with a successful
scroll — and a suffix. -/
theorem scanReturnable_eq_some (target : String) :
    ∀ (l : List Node) (n : Node), scanReturnable target l = some n →
      ∃ pre post, l = pre ++ n :: post ∧
        (∀ m ∈ pre, (nodeMatches target m && m.scrollOk) = false) ∧
        nodeMatches target n = true ∧ n.scrollOk = true := by
  intro l
  induction l with
  | nil => intro n h; simp [scanReturnable] at h
  | cons a rest ih =>
    intro n h
    simp only [scanReturnable] at h
    by_cases ha : nodeMatches target a = true
    · rw [if_pos ha] at h
      by_cases hs : a.scrollOk = true
      · rw [if_pos hs] at h
        cases h
        exact ⟨[], rest, rfl, by simp, ha, hs⟩
      · rw [if_neg hs] at h
        obtain ⟨pre, post, hl, hpre, hn, hns⟩ := ih n h
        refine ⟨a :: pre, post, by rw [hl]; rfl, ?_, hn, hns⟩
        intro m hm
        rcases List.mem_cons.mp hm with rfl | hm2
        · have hsf : m.scrollOk = false := by
            cases hb : m.scrollOk
            · rfl
            · exact absurd hb hs
          simp [hsf]
        · exact hpre m hm2
    · rw [if_neg ha] at h
      obtain ⟨pre, post, hl, hpre, hn, hns⟩ := ih n h
      refine ⟨a :: pre, post, by rw [hl]; rfl, ?_, hn, hns⟩
      intro m hm
      rcases List.mem_cons.mp hm with rfl | hm2
      · have hmf : nodeMatches target m = false := by
          cases hb : nodeMatches target m
          · rfl
          · exact absurd hb ha
        simp [hmf]
      · exact hpre m hm2

/-- The main loop begins at most `fuel` iterations. -/
theorem runLoop_iters_le (tr : DriverTrace) (target : String) :
    ∀ fuel k pos, (runLoop tr target fuel k pos).iters ≤ fuel := by
  intro fuel
  induction fuel with
  | zero => intro k pos; simp [runLoop]
  | succ fuel ih =>
    intro k pos
    simp only [runLoop]
    split
    · split
      · simpa [LoopOut.afterIteration] using ih (k + 1) (pos + scrollAmount)
      · simp
    · split
      · split <;> simp
      · split
        · simp
        · simpa [LoopOut.afterIteration] using ih (k + 1) (pos + scrollAmount)

/-- When the main loop returns a node, the node is the scan result of the
batch queried at the found iteration `j`, every earlier iteration
performed exactly one scroll step (so `steps = j - k`), and the loop ran
no iteration beyond `j`. -/
theorem runLoop_found_spec (tr : DriverTrace) (target : String) :
    ∀ fuel k pos out, runLoop tr target fuel k pos = out →
      ∀ n j, out.exit = LoopExit.found n j →
        k ≤ j ∧ out.iters = j - k + 1 ∧ out.steps = j - k ∧
        scanReturnable target (tr.batch j) = some n := by
  intro fuel
  induction fuel with
  | zero =>
    intro k pos out hout n j hexit
    rw [← hout] at hexit
    simp [runLoop] at hexit
  | succ fuel ih =>
    intro k pos out hout n j hexit
    simp only [runLoop] at hout
    split at hout
    · split at hout
      · subst hout
        simp only [LoopOut.afterIteration] at hexit
        obtain ⟨h1, h2, h3, h4⟩ :=
          ih (k + 1) (pos + scrollAmount) _ rfl n j hexit
        refine ⟨by omega, ?_, ?_, h4⟩ <;>
          simp only [LoopOut.afterIteration] <;> omega
      · subst hout; simp at hexit
    · split at hout
      · rename_i hscan
        split at hout
        · subst hout
          simp only at hexit
          cases hexit
          exact ⟨Nat.le_refl _, by simp, by simp, hscan⟩
        · subst hout; simp at hexit
      · split at hout
        · subst hout; simp at hexit
        · subst hout
          simp only [LoopOut.afterIteration] at hexit
          obtain ⟨h1, h2, h3, h4⟩ :=
            ih (k + 1) (pos + scrollAmount) _ rfl n j hexit
          refine ⟨by omega, ?_, ?_, h4⟩ <;>
            simp only [LoopOut.afterIteration] <;> omega

/-- When an iteration `k + d` was followed by a further iteration, that
iteration either saw an empty batch (and its un-guarded wait succeeded)
or scanned without a match and observed the scroll position strictly more
than `bottomMargin` above the page height. -/
theorem runLoop_continue_spec (tr : DriverTrace) (target : String) :
    ∀ fuel k pos d, d + 1 < (runLoop tr target fuel k pos).iters →
      ((tr.batch (k + d)).isEmpty = true ∧ tr.emptyWaitOk (k + d) = true) ∨
      (scanReturnable target (tr.batch (k + d)) = none ∧
        tr.scrollPos (k + d) + bottomMargin < tr.height (k + d)) := by
  intro fuel
  induction fuel with
  | zero => intro k pos d h; simp [runLoop] at h
  | succ fuel ih =>
    intro k pos d h
    simp only [runLoop] at h
    split at h
    · rename_i hb
      split at h
      · rename_i hw
        cases d with
        | zero => exact Or.inl ⟨hb, hw⟩
        | succ d2 =>
          simp only [LoopOut.afterIteration] at h
          have h2 := ih (k + 1) (pos + scrollAmount) d2 (by omega)
          have hidx : k + 1 + d2 = k + (d2 + 1) := by omega
          rw [hidx] at h2
          exact h2
      · simp [LoopOut.afterIteration] at h
    · rename_i hb
      split at h
      · split at h <;> simp at h
      · rename_i hscan
        split at h
        · simp at h
        · rename_i hbc
          cases d with
          | zero =>
            have hgoal : tr.scrollPos k + bottomMargin < tr.height k := by omega
            exact Or.inr ⟨hscan, hgoal⟩
          | succ d2 =>
            simp only [LoopOut.afterIteration] at h
            have h2 := ih (k + 1) (pos + scrollAmount) d2 (by omega)
            have hidx : k + 1 + d2 = k + (d2 + 1) := by omega
            rw [hidx] at h2
            exact h2

/-- When every wait the main loop can issue succeeds, the loop never
exits by a propagated timeout. -/
theorem runLoop_no_timeout (tr : DriverTrace) (target : String)
    (hE : ∀ k, tr.emptyWaitOk k = true) (hM : ∀ k, tr.matchWaitOk k = true) :
    ∀ fuel k pos, (runLoop tr target fuel k pos).exit ≠ LoopExit.raisedTimeout := by
  intro fuel
  induction fuel with
  | zero => intro k pos; simp [runLoop]
  | succ fuel ih =>
    intro k pos
    simp only [runLoop]
    split
    · rw [hE k]
      simpa [LoopOut.afterIteration] using ih (k + 1) (pos + scrollAmount)
    · split
      · rw [hM _]
        simp
      · split
        · simp
        · simpa [LoopOut.afterIteration] using ih (k + 1) (pos + scrollAmount)

/-- The iteration count of a whole search call is the iteration count of
its main loop: the final top-rescan runs no main-loop iteration. -/
theorem find_product_itersRun_eq (tr : DriverTrace) (target : String) :
    (find_product_by_name tr target).itersRun =
      (runLoop tr target maxScrolls 0 0).iters := by
  unfold find_product_by_name
  split
  · rfl
  · rfl
  · split
    · split <;> rfl
    · rfl

/-- The scroll-step count of a whole search call is that of its main
loop: the final top-rescan performs no incremental scroll step. -/
theorem find_product_scrollSteps_eq (tr : DriverTrace) (target : String) :
    (find_product_by_name tr target).scrollSteps =
      (runLoop tr target maxScrolls 0 0).steps := by
  unfold find_product_by_name
  split
  · rfl
  · rfl
  · split
    · split <;> rfl
    · rfl

/-! ## Claim theorems -/

/-- C1 counterexample: the first batch holds two tiles whose stripped
titles both equal the target; the first is stale at the post-match
`scroll_to_element` (collectionpage.py line 163, caught by the
`except ... continue` arm at line 171), so the program skips it and
returns the second tile — not the first item in DOM order among the
queried nodes whose title text equals the target. -/
theorem find_product_first_match_counterexample :
    (find_product_by_name trStaleScroll "Lace Bra").result =
      SearchResult.found (Node.mk (some "Lace Bra") true) ∧
    trStaleScroll.batch 0 =
      [Node.mk (some "Lace Bra") false, Node.mk (some "Lace Bra") true] ∧
    nodeMatches "Lace Bra" (Node.mk (some "Lace Bra") false) = true ∧
    Node.mk (some "Lace Bra") true ≠ Node.mk (some "Lace Bra") false := by
  refine ⟨by decide, by decide, by decide, by decide⟩

/-- C1 as amended: for every target product name, whenever
`find_product_by_name` returns a node, that node is the first item in DOM
order among the currently queried product nodes whose stripped title text
equals the target exactly AND whose scroll into view succeeds — every
earlier node either fails or mismatches the title read, or matches but
goes stale at the post-match scroll and is skipped — and the function
returns it immediately upon that returnable match: when found in the
main loop at iteration `k`, all `scrollSteps = k` incremental scroll
steps precede that iteration and no iteration runs after it; when found
in the final top-rescan no incremental scroll step follows either. -/
theorem find_product_returns_first_viable_match
    (tr : DriverTrace) (target : String) (n : Node)
    (h : (find_product_by_name tr target).result = SearchResult.found n) :
    ∃ q,
      ((∃ k, (find_product_by_name tr target).foundIter = some k ∧
          q = tr.batch k ∧
          (find_product_by_name tr target).scrollSteps = k ∧
          (find_product_by_name tr target).itersRun = k + 1) ∨
        ((find_product_by_name tr target).finalPass = true ∧ q = tr.finalBatch)) ∧
      ∃ pre post, q = pre ++ n :: post ∧
        (∀ m ∈ pre, (nodeMatches target m && m.scrollOk) = false) ∧
        nodeMatches target n = true ∧ n.scrollOk = true := by
  cases hE : (runLoop tr target maxScrolls 0 0).exit with
  | found m k =>
    have hfp : find_product_by_name tr target =
        ⟨SearchResult.found m, (runLoop tr target maxScrolls 0 0).iters,
         (runLoop tr target maxScrolls 0 0).steps, false, 0, some k⟩ := by
      unfold find_product_by_name
      rw [hE]
    rw [hfp] at h
    dsimp only at h
    injection h with h1
    subst h1
    obtain ⟨hk, hiters, hsteps, hscan⟩ :=
      runLoop_found_spec tr target maxScrolls 0 0 _ rfl m k hE
    refine ⟨tr.batch k, Or.inl ⟨k, ?_, rfl, ?_, ?_⟩,
      scanReturnable_eq_some target (tr.batch k) m hscan⟩
    · rw [hfp]
    · rw [hfp]; dsimp only; omega
    · rw [hfp]; dsimp only; omega
  | raisedTimeout =>
    have hfp : (find_product_by_name tr target).result = SearchResult.waitTimeout := by
      unfold find_product_by_name
      rw [hE]
    rw [hfp] at h
    simp at h
  | exhausted =>
    by_cases hw : tr.finalWaitOk = true
    · cases hscan : scanReturnable target tr.finalBatch with
      | some m =>
        have hfp : find_product_by_name tr target =
            ⟨SearchResult.found m, (runLoop tr target maxScrolls 0 0).iters,
             (runLoop tr target maxScrolls 0 0).steps, true, 1, none⟩ := by
          unfold find_product_by_name
          rw [hE, if_pos hw, hscan]
        rw [hfp] at h
        dsimp only at h
        injection h with h1
        subst h1
        refine ⟨tr.finalBatch, Or.inr ⟨?_, rfl⟩,
          scanReturnable_eq_some target tr.finalBatch m hscan⟩
        rw [hfp]
      | none =>
        have hfp : (find_product_by_name tr target).result = SearchResult.notFound := by
          unfold find_product_by_name
          rw [hE, if_pos hw, hscan]
        rw [hfp] at h
        simp at h
    · have hfp : (find_product_by_name tr target).result = SearchResult.waitTimeout := by
        unfold find_product_by_name
        rw [hE, if_neg hw]
      rw [hfp] at h
      simp at h

/-- Witness for C1 as amended, at the counterexample trace: the returned
node is the matching tile whose scroll succeeded, preceded only by the
matching-but-stale tile. -/
theorem find_product_returns_first_viable_match_witness :
    (find_product_by_name trStaleScroll "Lace Bra").result =
      SearchResult.found (Node.mk (some "Lace Bra") true) ∧
    ∃ q,
      ((∃ k, (find_product_by_name trStaleScroll "Lace Bra").foundIter = some k ∧
          q = trStaleScroll.batch k ∧
          (find_product_by_name trStaleScroll "Lace Bra").scrollSteps = k ∧
          (find_product_by_name trStaleScroll "Lace Bra").itersRun = k + 1) ∨
        ((find_product_by_name trStaleScroll "Lace Bra").finalPass = true ∧
          q = trStaleScroll.finalBatch)) ∧
      ∃ pre post, q = pre ++ Node.mk (some "Lace Bra") true :: post ∧
        (∀ m ∈ pre, (nodeMatches "Lace Bra" m && m.scrollOk) = false) ∧
        nodeMatches "Lace Bra" (Node.mk (some "Lace Bra") true) = true ∧
        (Node.mk (some "Lace Bra") true).scrollOk = true :=
  ⟨by decide,
    find_product_returns_first_viable_match trStaleScroll "Lace Bra" _ (by decide)⟩

/-- C2 counterexample: under a driver that keeps answering the product
query with an empty list, the loop takes the empty-products `continue`
branch every time — which never reads the scroll position or the page
height — and therefore runs all 100 iterations even though the driver
would report the scroll position within 500px of the page bottom from
iteration 0 on.  This refutes the claim that the scan stops as soon as
the current scroll position is within 500px of the bottom for every
sequence of driver responses. -/
theorem find_product_bottom_check_counterexample :
    (find_product_by_name trEmptyBatches "Lace Bra").itersRun = 100 ∧
    trEmptyBatches.height 0 ≤ trEmptyBatches.scrollPos 0 + bottomMargin ∧
    (1 : Nat) < 100 := by
  refine ⟨by decide, by decide, by decide⟩

/-- C2 as amended: `find_product_by_name` always terminates — its
scanning loop begins at most the hard cap of 100 iterations — and an
iteration is followed by a further one only when either the product query
returned no nodes (that branch skips the bottom check entirely) or the
full scan produced no returnable node (every tile mismatched or failed
the title read, or matched but went stale at the post-match scroll and
was skipped) and the queried scroll position was still more than 500
pixels above the queried page height; hence the early bottom-proximity
stop applies exactly to iterations that scanned a nonempty batch without
a returnable match. -/
theorem find_product_scan_cap_and_bottom_check (tr : DriverTrace) (target : String) :
    (find_product_by_name tr target).itersRun ≤ maxScrolls ∧
    ∀ k, k + 1 < (find_product_by_name tr target).itersRun →
      ((tr.batch k).isEmpty = true ∧ tr.emptyWaitOk k = true) ∨
      (scanReturnable target (tr.batch k) = none ∧
        tr.scrollPos k + bottomMargin < tr.height k) := by
  constructor
  · rw [find_product_itersRun_eq]
    exact runLoop_iters_le tr target maxScrolls 0 0
  · intro k hk
    rw [find_product_itersRun_eq] at hk
    have h := runLoop_continue_spec tr target maxScrolls 0 0 k hk
    simpa using h

/-- Witness for C2 as amended, at a concrete trace. -/
theorem find_product_scan_cap_witness :
    (find_product_by_name trLaceBra "Lace Bra").itersRun ≤ maxScrolls :=
  (find_product_scan_cap_and_bottom_check trLaceBra "Lace Bra").1

/-- C3 counterexample: a trace that exhausts scanning without a match and
whose final-pass stabilization wait times out.  The function starts the
final pass (scrolls to top) but performs no re-query and propagates the
wait timeout — it neither returns a node nor raises the
product-not-found error, refuting the claimed dichotomy and the claimed
iff. -/
theorem find_product_final_wait_counterexample :
    (find_product_by_name trFinalTimeout "Lace Bra").finalPass = true ∧
    (find_product_by_name trFinalTimeout "Lace Bra").result =
      SearchResult.waitTimeout ∧
    (find_product_by_name trFinalTimeout "Lace Bra").finalQueries = 0 ∧
    SearchResult.waitTimeout ≠ SearchResult.notFound := by
  refine ⟨by decide, by decide, by decide, by decide⟩

/-- C3 as amended: when scanning is exhausted without a match the
function starts exactly one final pass (and none otherwise): it scrolls
to the very top and waits for product nodes; if that un-guarded short
wait succeeds it re-queries exactly once and returns the first node of
the re-query whose title matches and whose scroll into view succeeds, or
raises ProductNotFoundError, raising it if and only if no queried node of
the final pass both matches and scrolls successfully (a matching tile
gone stale at the final-pass scroll is skipped by the same
`except ... continue` arm); if the wait times out, the timeout error
propagates instead without any re-query. -/
theorem find_product_final_pass_spec (tr : DriverTrace) (target : String) :
    ((find_product_by_name tr target).finalPass = false →
      (find_product_by_name tr target).finalQueries = 0) ∧
    ((find_product_by_name tr target).finalPass = true →
      (find_product_by_name tr target).finalQueries ≤ 1 ∧
      (tr.finalWaitOk = true →
        (find_product_by_name tr target).finalQueries = 1 ∧
        ((∃ n, scanReturnable target tr.finalBatch = some n ∧
            (find_product_by_name tr target).result = SearchResult.found n) ∨
          (scanReturnable target tr.finalBatch = none ∧
            (find_product_by_name tr target).result = SearchResult.notFound))) ∧
      (tr.finalWaitOk = false →
        (find_product_by_name tr target).result = SearchResult.waitTimeout ∧
        (find_product_by_name tr target).finalQueries = 0)) ∧
    ((find_product_by_name tr target).result = SearchResult.notFound ↔
      ((find_product_by_name tr target).finalPass = true ∧ tr.finalWaitOk = true ∧
        scanReturnable target tr.finalBatch = none)) := by
  cases hE : (runLoop tr target maxScrolls 0 0).exit with
  | found m k =>
    have hfp : find_product_by_name tr target =
        ⟨SearchResult.found m, (runLoop tr target maxScrolls 0 0).iters,
         (runLoop tr target maxScrolls 0 0).steps, false, 0, some k⟩ := by
      unfold find_product_by_name
      rw [hE]
    rw [hfp]
    simp
  | raisedTimeout =>
    have hfp : find_product_by_name tr target =
        ⟨SearchResult.waitTimeout, (runLoop tr target maxScrolls 0 0).iters,
         (runLoop tr target maxScrolls 0 0).steps, false, 0, none⟩ := by
      unfold find_product_by_name
      rw [hE]
    rw [hfp]
    simp
  | exhausted =>
    by_cases hw : tr.finalWaitOk = true
    · cases hscan : scanReturnable target tr.finalBatch with
      | some m =>
        have hfp : find_product_by_name tr target =
            ⟨SearchResult.found m, (runLoop tr target maxScrolls 0 0).iters,
             (runLoop tr target maxScrolls 0 0).steps, true, 1, none⟩ := by
          unfold find_product_by_name
          rw [hE, if_pos hw, hscan]
        rw [hfp]
        simp [hw, hscan]
      | none =>
        have hfp : find_product_by_name tr target =
            ⟨SearchResult.notFound, (runLoop tr target maxScrolls 0 0).iters,
             (runLoop tr target maxScrolls 0 0).steps, true, 1, none⟩ := by
          unfold find_product_by_name
          rw [hE, if_pos hw, hscan]
        rw [hfp]
        simp [hw, hscan]
    · have hfp : find_product_by_name tr target =
          ⟨SearchResult.waitTimeout, (runLoop tr target maxScrolls 0 0).iters,
           (runLoop tr target maxScrolls 0 0).steps, true, 0, none⟩ := by
        unfold find_product_by_name
        rw [hE, if_neg hw]
      rw [hfp]
      simp [hw]

/-- Witness for C3 as amended, at a concrete trace whose final pass
succeeds. -/
theorem find_product_final_pass_spec_witness :
    (find_product_by_name trFinalFound "Lace Bra").finalPass = true ∧
    (find_product_by_name trFinalFound "Lace Bra").finalQueries ≤ 1 :=
  ⟨by decide,
    ((find_product_final_pass_spec trFinalFound "Lace Bra").2.1 (by decide)).1⟩

/-- C4: a node whose title lookup fails (stale node or missing title
element) is skipped and scanning continues: the scan result is unchanged
when such nodes are removed; a failing node ahead of a matching node
never prevents the match; and a title-lookup failure never propagates out
of `find_product_by_name` — when every wait succeeds the search can only
return a node or raise the product-not-found error, whatever failed
titles the batches contain. -/
theorem title_lookup_failures_skipped :
    (∀ (target : String) (l : List Node),
      scanProducts target l =
        scanProducts target (l.filter (fun n => n.title.isSome))) ∧
    (∀ (target : String) (pre : List Node) (n : Node) (post : List Node),
      (∀ m ∈ pre, m.title = none) → nodeMatches target n = true →
      scanProducts target (pre ++ n :: post) = some n) ∧
    (∀ (tr : DriverTrace) (target : String),
      (∀ k, tr.emptyWaitOk k = true) → (∀ k, tr.matchWaitOk k = true) →
      tr.finalWaitOk = true →
      (find_product_by_name tr target).result ≠ SearchResult.waitTimeout) := by
  refine ⟨?_, ?_, ?_⟩
  · intro target l
    induction l with
    | nil => rfl
    | cons a rest ih =>
      cases ha : a.title with
      | none =>
        have hm : nodeMatches target a = false := by simp [nodeMatches, ha]
        simp [scanProducts, List.filter_cons, ha, hm, ih]
      | some t =>
        simp [scanProducts, List.filter_cons, ha, ih]
  · intro target pre n post hpre hn
    induction pre with
    | nil => simp [scanProducts, hn]
    | cons a pre2 ih =>
      have ha : a.title = none := hpre a (List.mem_cons_self a pre2)
      have hm : nodeMatches target a = false := by simp [nodeMatches, ha]
      rw [List.cons_append]
      simp only [scanProducts, hm]
      rw [if_neg (by simp)]
      exact ih (fun m hm2 => hpre m (List.mem_cons_of_mem a hm2))
  · intro tr target hEok hMok hF
    cases hE : (runLoop tr target maxScrolls 0 0).exit with
    | found m k =>
      have hfp : (find_product_by_name tr target).result = SearchResult.found m := by
        unfold find_product_by_name
        rw [hE]
      rw [hfp]
      simp
    | raisedTimeout =>
      exact absurd hE (runLoop_no_timeout tr target hEok hMok maxScrolls 0 0)
    | exhausted =>
      cases hscan : scanReturnable target tr.finalBatch with
      | some m =>
        have hfp : (find_product_by_name tr target).result = SearchResult.found m := by
          unfold find_product_by_name
          rw [hE, if_pos hF, hscan]
        rw [hfp]
        simp
      | none =>
        have hfp : (find_product_by_name tr target).result = SearchResult.notFound := by
          unfold find_product_by_name
          rw [hE, if_pos hF, hscan]
        rw [hfp]
        simp

/-- Witness for C4: the stale tile ahead of the match is skipped, and the
concrete search completes without a propagated timeout. -/
theorem title_lookup_failures_skipped_witness :
    scanProducts "Lace Bra"
        ([Node.mk none true] ++ Node.mk (some "Lace Bra") true :: []) =
      some (Node.mk (some "Lace Bra") true) ∧
    (find_product_by_name trStaleThenMatch "Lace Bra").result ≠
      SearchResult.waitTimeout :=
  ⟨title_lookup_failures_skipped.2.1 "Lace Bra" [Node.mk none true]
      (Node.mk (some "Lace Bra") true) [] (by decide) (by decide),
    title_lookup_failures_skipped.2.2 trStaleThenMatch "Lace Bra"
      (fun _ => rfl) (fun _ => rfl) rfl⟩

/-- A list is empty under `List.isEmpty` exactly when it is `[]`. -/
theorem list_isEmpty_eq_nil {α : Type} (l : List α) : l.isEmpty = true ↔ l = [] := by
  cases l <;> simp

/-- The truthiness poll finds nothing exactly when every allowed poll
returns the empty list. -/
theorem firstNonemptyFrom_eq_none_iff {α : Type} (polls : Nat → List α) :
    ∀ fuel i, firstNonemptyFrom polls fuel i = none ↔
      ∀ d, d < fuel → polls (i + d) = [] := by
  intro fuel
  induction fuel with
  | zero => intro i; simp [firstNonemptyFrom]
  | succ fuel ih =>
    intro i
    simp only [firstNonemptyFrom]
    by_cases hi : (polls i).isEmpty = true
    · rw [if_pos hi, ih (i + 1)]
      constructor
      · intro h d hd
        cases d with
        | zero => rw [Nat.add_zero]; exact (list_isEmpty_eq_nil _).mp hi
        | succ d2 =>
          have h2 := h d2 (by omega)
          rwa [show i + 1 + d2 = i + (d2 + 1) by omega] at h2
      · intro h d hd
        have h2 := h (d + 1) (by omega)
        rwa [show i + (d + 1) = i + 1 + d by omega] at h2
    · rw [if_neg hi]
      constructor
      · intro h; simp at h
      · intro h
        exfalso
        have h0 := h 0 (by omega)
        rw [Nat.add_zero] at h0
        exact hi (by rw [h0]; rfl)

/-- When the truthiness poll returns a list, it is the first nonempty
poll response. -/
theorem firstNonemptyFrom_eq_some_spec {α : Type} (polls : Nat → List α) :
    ∀ fuel i es, firstNonemptyFrom polls fuel i = some es →
      ∃ d, d < fuel ∧ polls (i + d) = es ∧ es ≠ [] ∧
        ∀ e, e < d → polls (i + e) = [] := by
  intro fuel
  induction fuel with
  | zero => intro i es h; simp [firstNonemptyFrom] at h
  | succ fuel ih =>
    intro i es h
    simp only [firstNonemptyFrom] at h
    by_cases hi : (polls i).isEmpty = true
    · rw [if_pos hi] at h
      obtain ⟨d, hd, hpd, hne, hbefore⟩ := ih (i + 1) es h
      refine ⟨d + 1, by omega, ?_, hne, ?_⟩
      · rwa [show i + (d + 1) = i + 1 + d by omega]
      · intro e he
        cases e with
        | zero => rw [Nat.add_zero]; exact (list_isEmpty_eq_nil _).mp hi
        | succ e2 =>
          have h2 := hbefore e2 (by omega)
          rwa [show i + 1 + e2 = i + (e2 + 1) by omega] at h2
    · rw [if_neg hi] at h
      cases h
      exact ⟨0, by omega, by rw [Nat.add_zero],
        fun hc => hi (by rw [hc]; rfl),
        fun e he => absurd he (by omega)⟩

/-- C5 counterexample: with `min_count = 2`, a first poll answering one
element and every later poll answering two, the method raises its timeout
error immediately even though the element count reaches `min_count`
within the timeout (already at poll 1 of 5) — refuting the claim that the
timeout error is raised only when the count never reaches `min_count`
within the timeout. -/
theorem wait_for_elements_count_counterexample :
    wait_for_elements_present countPolls 5 2 = Except.error WaitError.timeout ∧
    (1 : Nat) < 5 ∧ 2 ≤ (countPolls 1).length :=
  ⟨rfl, by decide, by decide⟩

/-- C5 as amended: `wait_for_elements_present` polls only until the first
nonempty element list, returns that list when its length reaches
`min_count`, and raises the timeout error either when no element is ever
located within the timeout or immediately when the first nonempty list is
shorter than `min_count` — without polling further.  For the default
`min_count = 1` this coincides with the claimed behavior: it succeeds
exactly when some poll within the timeout locates at least one element. -/
theorem wait_for_elements_present_spec {α : Type} (polls : Nat → List α)
    (maxPolls min_count : Nat) :
    (∀ es, wait_for_elements_present polls maxPolls min_count = Except.ok es →
      min_count ≤ es.length ∧
      ∃ i, i < maxPolls ∧ polls i = es ∧ es ≠ [] ∧ ∀ j, j < i → polls j = []) ∧
    (wait_for_elements_present polls maxPolls min_count =
        Except.error WaitError.timeout →
      (∀ i, i < maxPolls → polls i = []) ∨
      ∃ i, i < maxPolls ∧ (∀ j, j < i → polls j = []) ∧ polls i ≠ [] ∧
        (polls i).length < min_count) ∧
    ((∃ es, wait_for_elements_present polls maxPolls 1 = Except.ok es) ↔
      ∃ i, i < maxPolls ∧ polls i ≠ []) := by
  refine ⟨?_, ?_, ?_⟩
  · intro es h
    unfold wait_for_elements_present at h
    cases hf : firstNonemptyFrom polls maxPolls 0 with
    | none => rw [hf] at h; simp at h
    | some es2 =>
      rw [hf] at h
      dsimp only at h
      by_cases hc : min_count ≤ es2.length
      · rw [if_pos hc] at h
        cases h
        obtain ⟨d, hd, hpd, hne, hb⟩ :=
          firstNonemptyFrom_eq_some_spec polls maxPolls 0 _ hf
        rw [Nat.zero_add] at hpd
        refine ⟨hc, d, hd, hpd, hne, fun j hj => ?_⟩
        have h2 := hb j hj
        rwa [Nat.zero_add] at h2
      · rw [if_neg hc] at h
        simp at h
  · intro h
    unfold wait_for_elements_present at h
    cases hf : firstNonemptyFrom polls maxPolls 0 with
    | none =>
      left
      intro i hi
      have h2 := (firstNonemptyFrom_eq_none_iff polls maxPolls 0).mp hf i hi
      rwa [Nat.zero_add] at h2
    | some es2 =>
      rw [hf] at h
      dsimp only at h
      by_cases hc : min_count ≤ es2.length
      · rw [if_pos hc] at h
        simp at h
      · right
        obtain ⟨d, hd, hpd, hne, hb⟩ :=
          firstNonemptyFrom_eq_some_spec polls maxPolls 0 es2 hf
        rw [Nat.zero_add] at hpd
        refine ⟨d, hd, fun j hj => ?_, ?_, ?_⟩
        · have h2 := hb j hj
          rwa [Nat.zero_add] at h2
        · rw [hpd]; exact hne
        · rw [hpd]; omega
  · constructor
    · rintro ⟨es, h⟩
      unfold wait_for_elements_present at h
      cases hf : firstNonemptyFrom polls maxPolls 0 with
      | none => rw [hf] at h; simp at h
      | some es2 =>
        obtain ⟨d, hd, hpd, hne, _⟩ :=
          firstNonemptyFrom_eq_some_spec polls maxPolls 0 es2 hf
        rw [Nat.zero_add] at hpd
        exact ⟨d, hd, by rw [hpd]; exact hne⟩
    · rintro ⟨i, hi, hne⟩
      unfold wait_for_elements_present
      cases hf : firstNonemptyFrom polls maxPolls 0 with
      | none =>
        exfalso
        have h2 := (firstNonemptyFrom_eq_none_iff polls maxPolls 0).mp hf i hi
        rw [Nat.zero_add] at h2
        exact hne h2
      | some es2 =>
        obtain ⟨d, hd, hpd, hne2, _⟩ :=
          firstNonemptyFrom_eq_some_spec polls maxPolls 0 es2 hf
        have hlen : 1 ≤ es2.length := by
          cases es2 with
          | nil => exact absurd rfl hne2
          | cons a t => simp
        dsimp only
        rw [if_pos hlen]
        exact ⟨es2, rfl⟩

/-- Witness for C5 as amended, at the concrete poll responses of the
counterexample. -/
theorem wait_for_elements_present_spec_witness :
    wait_for_elements_present countPolls 5 2 = Except.error WaitError.timeout ∧
    ((∀ i, i < 5 → countPolls i = []) ∨
      ∃ i, i < 5 ∧ (∀ j, j < i → countPolls j = []) ∧ countPolls i ≠ [] ∧
        (countPolls i).length < 2) :=
  ⟨rfl, (wait_for_elements_present_spec countPolls 5 2).2.1 rfl⟩

/-- Validation succeeds exactly when every required key occurs among the
record keys. -/
theorem validate_test_data_iff (record : List (String × String))
    (required : List String) :
    validate_test_data record required = true ↔
      ∀ k ∈ required, record.any (fun p => p.1 == k) = true := by
  unfold validate_test_data
  rw [list_isEmpty_eq_nil, List.filter_eq_nil_iff]
  constructor
  · intro h k hk
    have h2 := h k hk
    simpa using h2
  · intro h k hk
    simpa using h k hk

/-- C6: `validate_test_data` returns True iff every required key is
present in the record, and the scenario asserts this validation before
any browser action: a record failing validation aborts the run with the
assertion failure and an empty browser-action list, and browser actions
occur only under a passed validation. -/
theorem validate_test_data_gates_browser :
    (∀ (record : List (String × String)) (required : List String),
      validate_test_data record required = true ↔
        ∀ k ∈ required, record.any (fun p => p.1 == k) = true) ∧
    (∀ (record : List (String × String)) (baseUrl : String),
      validate_test_data record TEST_DATA_KEYS = false →
        run_e2e_scenario record baseUrl = (ScenarioStatus.assertionFailed, [])) ∧
    (∀ (record : List (String × String)) (baseUrl : String),
      (run_e2e_scenario record baseUrl).2 ≠ [] →
        validate_test_data record TEST_DATA_KEYS = true) := by
  refine ⟨validate_test_data_iff, ?_, ?_⟩
  · intro record baseUrl hval
    unfold run_e2e_scenario
    rw [if_neg (by rw [hval]; simp)]
  · intro record baseUrl h
    by_cases hval : validate_test_data record TEST_DATA_KEYS = true
    · exact hval
    · exact absurd (by unfold run_e2e_scenario; rw [if_neg hval]) h

/-- Witness for C6: a record holding only `userEmail` fails validation
and produces no browser action. -/
theorem validate_test_data_gates_browser_witness :
    validate_test_data [("userEmail", "a")] TEST_DATA_KEYS = false ∧
    run_e2e_scenario [("userEmail", "a")] "https://www.bluebella.com" =
      (ScenarioStatus.assertionFailed, []) :=
  ⟨by decide,
    validate_test_data_gates_browser.2.1 [("userEmail", "a")]
      "https://www.bluebella.com" (by decide)⟩

/-- The single-element poll succeeds exactly when some allowed poll
returns the element. -/
theorem firstSomeFrom_isSome_iff {α : Type} (polls : Nat → Option α) :
    ∀ fuel i, (firstSomeFrom polls fuel i).isSome = true ↔
      ∃ d, d < fuel ∧ (polls (i + d)).isSome = true := by
  intro fuel
  induction fuel with
  | zero => intro i; simp [firstSomeFrom]
  | succ fuel ih =>
    intro i
    simp only [firstSomeFrom]
    cases hp : polls i with
    | some e =>
      constructor
      · intro _
        exact ⟨0, by omega, by rw [Nat.add_zero, hp]; rfl⟩
      · intro _
        rfl
    | none =>
      rw [ih (i + 1)]
      constructor
      · rintro ⟨d, hd, hpd⟩
        exact ⟨d + 1, by omega, by rwa [show i + (d + 1) = i + 1 + d by omega]⟩
      · rintro ⟨d, hd, hpd⟩
        cases d with
        | zero => rw [Nat.add_zero, hp] at hpd; simp at hpd
        | succ d2 =>
          exact ⟨d2, by omega, by rwa [show i + 1 + d2 = i + (d2 + 1) by omega]⟩

/-- The boolean visibility check holds exactly when some poll within the
timeout sees the element. -/
theorem is_element_visible_iff {α : Type} (polls : Nat → Option α) (maxPolls : Nat) :
    is_element_visible polls maxPolls = true ↔
      ∃ i, i < maxPolls ∧ (polls i).isSome = true := by
  have hbool : is_element_visible polls maxPolls =
      (firstSomeFrom polls maxPolls 0).isSome := by
    unfold is_element_visible wait_for_element_visible
    cases firstSomeFrom polls maxPolls 0 <;> rfl
  rw [hbool, firstSomeFrom_isSome_iff]
  simp

/-- The boolean presence check holds exactly when some poll within the
timeout sees the element. -/
theorem is_element_present_iff {α : Type} (polls : Nat → Option α) (maxPolls : Nat) :
    is_element_present polls maxPolls = true ↔
      ∃ i, i < maxPolls ∧ (polls i).isSome = true := by
  have hbool : is_element_present polls maxPolls =
      (firstSomeFrom polls maxPolls 0).isSome := by
    unfold is_element_present wait_for_element_present
    cases firstSomeFrom polls maxPolls 0 <;> rfl
  rw [hbool, firstSomeFrom_isSome_iff]
  simp

/-- C7: the non-throwing existence checks convert wait timeouts to
booleans — `is_element_visible` and `is_element_present` are total
boolean functions returning True exactly when the element appears at some
poll within their timeout (and False on timeout) — and
`select_size_if_available` returns False, without raising, whenever the
size option is never visible within its short existence check. -/
theorem existence_checks_return_booleans :
    (∀ (α : Type) (polls : Nat → Option α) (maxPolls : Nat),
      is_element_visible polls maxPolls = true ↔
        ∃ i, i < maxPolls ∧ (polls i).isSome = true) ∧
    (∀ (α : Type) (polls : Nat → Option α) (maxPolls : Nat),
      is_element_present polls maxPolls = true ↔
        ∃ i, i < maxPolls ∧ (polls i).isSome = true) ∧
    (∀ (α : Type) (polls : Nat → Option α) (maxPolls : Nat) (clickSucceeds : Bool),
      (∀ i, i < maxPolls → polls i = none) →
        select_size_if_available polls maxPolls clickSucceeds = false) := by
  refine ⟨fun α polls maxPolls => is_element_visible_iff polls maxPolls,
    fun α polls maxPolls => is_element_present_iff polls maxPolls, ?_⟩
  intro α polls maxPolls clickSucceeds hnone
  cases hv : is_element_visible polls maxPolls with
  | false => simp [select_size_if_available, hv]
  | true =>
    exfalso
    obtain ⟨i, hi, hsome⟩ := (is_element_visible_iff polls maxPolls).mp hv
    rw [hnone i hi] at hsome
    simp at hsome

/-- Witness for C7: with no poll ever seeing the size option, the size
selection degrades to False. -/
theorem existence_checks_return_booleans_witness :
    select_size_if_available (fun _ => (none : Option Nat)) 3 true = false :=
  existence_checks_return_booleans.2.2 Nat (fun _ => none) 3 true (fun _ _ => rfl)

/-- C8 counterexample: on a well-formed data file whose top level is the
list of records itself, `load_test_data` does not return that list — the
code calls `.get` on the parsed value, which only exists on a dict, so a
top-level list raises `AttributeError`; the list must instead sit under
the `"data"` key of a top-level object. -/
theorem load_test_data_list_counterexample :
    load_test_data (Json.arr sampleRecords) = Except.error PyError.attributeError ∧
    load_test_data (Json.arr sampleRecords) ≠ Except.ok (Json.arr sampleRecords) ∧
    load_test_data (Json.obj [("data", Json.arr sampleRecords)]) =
      Except.ok (Json.arr sampleRecords) :=
  ⟨rfl, fun h => Except.noConfusion h, rfl⟩

/-- C8 as amended: the test data source is a JSON file whose top level is
an object holding the record list under its `"data"` key;
`load_test_data` returns that list (and the empty list when the key is
absent), while a file whose top level is itself a list makes it raise
`AttributeError` rather than return the list. -/
theorem load_test_data_returns_data_field :
    (∀ (records : List Json) (rest : List (String × Json)),
      load_test_data (Json.obj (("data", Json.arr records) :: rest)) =
        Except.ok (Json.arr records)) ∧
    (∀ fields : List (String × Json),
      load_test_data (Json.obj fields) =
        Except.ok (dictGet fields "data" (Json.arr []))) ∧
    (∀ xs : List Json,
      load_test_data (Json.arr xs) = Except.error PyError.attributeError) :=
  ⟨fun _ _ => rfl, fun _ => rfl, fun _ => rfl⟩

/-- C9: in every `WaitUtils` operation a falsy timeout override (`None`
or `0`) silently falls back to the stored default — both in the
constructor and in the per-call `timeout or self.timeout` computation
shared by all wait methods — so an effective timeout of zero can only
come from the stored default being zero, never from the timeout
parameter. -/
theorem waitutils_falsy_timeout_fallback :
    (∀ dflt : Nat, (WaitUtils.init none dflt).timeout = dflt) ∧
    (∀ dflt : Nat, (WaitUtils.init (some 0) dflt).timeout = dflt) ∧
    (∀ w : WaitUtils, w.effectiveTimeout none = w.timeout) ∧
    (∀ w : WaitUtils, w.effectiveTimeout (some 0) = w.timeout) ∧
    (∀ (w : WaitUtils) (t : Option Nat),
      w.effectiveTimeout t = 0 → w.timeout = 0) ∧
    (∀ (t : Option Nat) (dflt : Nat),
      (WaitUtils.init t dflt).timeout = 0 → dflt = 0) := by
  refine ⟨fun _ => rfl, fun _ => rfl, fun _ => rfl, fun _ => rfl, ?_, ?_⟩
  · intro w t h
    cases t with
    | none => exact h
    | some n =>
      cases n with
      | zero => exact h
      | succ n2 => exact absurd h (Nat.succ_ne_zero n2)
  · intro t dflt h
    cases t with
    | none => exact h
    | some n =>
      cases n with
      | zero => exact h
      | succ n2 => exact absurd h (Nat.succ_ne_zero n2)

/-- Witness for C9: a zero override on an instance whose stored timeout
is zero. -/
theorem waitutils_falsy_timeout_fallback_witness :
    (WaitUtils.mk 0).effectiveTimeout (some 0) = 0 ∧ (WaitUtils.mk 0).timeout = 0 :=
  ⟨rfl, waitutils_falsy_timeout_fallback.2.2.2.2.1 (WaitUtils.mk 0) (some 0) rfl⟩

/-- C10: `is_signed_in` holds exactly when the current URL extends the
hard-coded literal `https://www.bluebella.com/account` — the configured
base URL is not an input of the predicate — and
`navigate_back_to_homepage` issues the single navigation to the original
URL exactly when the predicate holds, and no driver navigation at all
otherwise. -/
theorem is_signed_in_hardcoded_account_url (current_url original_url : String) :
    (is_signed_in current_url = true ↔
      ∃ rest : List Char,
        "https://www.bluebella.com/account".data ++ rest = current_url.data) ∧
    (is_signed_in current_url = true →
      navigate_back_to_homepage current_url original_url =
        [BrowserAction.navigate original_url]) ∧
    (is_signed_in current_url = false →
      navigate_back_to_homepage current_url original_url = []) := by
  refine ⟨?_, ?_, ?_⟩
  · unfold is_signed_in pyStartswith
    rw [List.isPrefixOf_iff_prefix]
    exact Iff.rfl
  · intro h
    unfold navigate_back_to_homepage
    rw [if_pos h]
  · intro h
    unfold navigate_back_to_homepage
    rw [if_neg (by rw [h]; simp)]

/-- Witness for C10: an account sub-page satisfies the predicate and
triggers the single navigation back. -/
theorem is_signed_in_hardcoded_account_url_witness :
    is_signed_in "https://www.bluebella.com/account/orders" = true ∧
    navigate_back_to_homepage "https://www.bluebella.com/account/orders"
      "https://www.bluebella.com" =
      [BrowserAction.navigate "https://www.bluebella.com"] :=
  ⟨by decide,
    (is_signed_in_hardcoded_account_url "https://www.bluebella.com/account/orders"
      "https://www.bluebella.com").2.1 (by decide)⟩
